import Mathlib

/-!
# Verification of the `@convex-dev/migrations` component

Shallow embedding of the migration engine from `src/component/lib.ts`
(component-side orchestrator, status projector, cancellation and retention
mutations) and `src/client/index.ts` (the `define`d per-page migration
mutation, i.e. the page processor).

Conventions of the embedding:
* Convex document ids for scheduled functions (`workerId`) are `Nat`.
* The external scheduler / system table is a map `Nat → Option WorkerDoc`
  giving, for a scheduled-function id, its system document (if any) with its
  `state.kind` and the relevant fields of its recorded arguments.
* JS `undefined` of an optional field is `Option.none`; a cursor that is
  JS `null` is `Option.none` inside the inner option
  (`cursor : Option String`, argument cursor : `Option (Option String)`).
* JS string truthiness matters in `getMigrationState`
  (`migration.error || …`): the empty string is falsy, hence `errTruthy`.
* A Convex mutation that throws rolls back every write it made (including
  writes of sub-mutations it invoked via `ctx.runMutation` and any
  scheduled tasks); a sub-mutation that throws rolls back its own writes
  while the caller may continue.  The embedding therefore returns, per
  invocation, the *committed* database, the *committed* schedule calls and
  the *committed* per-record patches, which are empty/unchanged on every
  throwing path.
-/

/-- The `state.kind` of a scheduled-function system document. -/
inductive WorkerState where
  | pending
  | inProgress
  | success
  | failed
  | canceled
deriving DecidableEq, Repr, BEq

/-- The slice of a scheduled function's system document that
`getMigrationState` reads: its liveness state and, from `worker.args[0]`,
the `batchSize` and the names in `next`. -/
structure WorkerDoc where
  state : WorkerState
  argsBatchSize : Option Int := none
  argsNext : Option (List String) := none
deriving DecidableEq, Repr, BEq

/-- A row of the component's `migrations` table (`WithoutSystemFields`).
`cursor = none` is the stored JS `null`. -/
structure MigrationDoc where
  name : String
  cursor : Option String
  isDone : Bool
  processed : Nat
  latestStart : Nat
  latestEnd : Option Nat := none
  error : Option String := none
  workerId : Option Nat := none
deriving DecidableEq, Repr, BEq

/-- The `state` field of `migrationStatus` (shared.ts). -/
inductive MStatus where
  | inProgress
  | success
  | failed
  | canceled
  | unknown
deriving DecidableEq, Repr, BEq

/-- Type `MigrationResult` from shared.ts: what one page run returns. -/
structure MigrationResult where
  continueCursor : String
  isDone : Bool
  processed : Nat
deriving DecidableEq, Repr, BEq

/-- Type `MigrationStatus` from shared.ts. -/
structure MigrationStatus where
  name : String
  cursor : Option String
  processed : Nat
  isDone : Bool
  latestStart : Nat
  latestEnd : Option Nat := none
  error : Option String := none
  state : MStatus
  batchSize : Option Int := none
  next : Option (List String) := none
deriving DecidableEq, Repr, BEq

/-- JS truthiness of the optional `error` string: `undefined` and `""` are
falsy, any other string is truthy. -/
def errTruthy : Option String → Bool
  | none => false
  | some s => !(s == "")

/-- A worker doc counts as live when its state is `pending` or `inProgress`. -/
def isLive : Option WorkerDoc → Bool
  | none => false
  | some w => w.state == .pending || w.state == .inProgress

/-- Function `getMigrationState` (component/lib.ts, lines 241-272): the Status
Projector.  Combines a `migrations` row with the liveness of its worker. -/
def getMigrationState (sys : Nat → Option WorkerDoc) (m : MigrationDoc) :
    MigrationStatus :=
  let worker := m.workerId.bind sys
  let st :=
    if m.isDone then MStatus.success
    else if errTruthy m.error || worker.any (·.state == .failed) then .failed
    else if worker.any (·.state == .canceled) then .canceled
    else if worker.any (fun w =>
        w.state == .inProgress || w.state == .pending) then .inProgress
    else .unknown
  { name := m.name
    cursor := m.cursor
    processed := m.processed
    isDone := m.isDone
    latestStart := m.latestStart
    latestEnd := m.latestEnd
    error := m.error
    state := st
    batchSize := worker.bind (·.argsBatchSize)
    next := worker.bind (·.argsNext) }

/-- The synthesized row `getStatus` builds for a requested name that has no
`migrations` row (component/lib.ts, lines 218-225). -/
def syntheticDoc (name : String) : MigrationDoc :=
  { name := name
    cursor := none
    isDone := false
    processed := 0
    latestStart := 0
    latestEnd := none
    error := none
    workerId := none }

/-- Query `getStatus` (component/lib.ts, lines 204-239).  `db` is the `name` index
of the `migrations` table; `tableDesc` is the table in descending
`_creationTime` order, used by the no-names branch.  Note the
`docs.reverse()` before projecting. -/
def getStatus (sys : Nat → Option WorkerDoc)
    (db : String → Option MigrationDoc) (tableDesc : List MigrationDoc)
    (names : Option (List String)) (limit : Option Nat) :
    List MigrationStatus :=
  let docs :=
    match names with
    | some ns => ns.map (fun m => (db m).getD (syntheticDoc m))
    | none => tableDesc.take (limit.getD 10)
  docs.reverse.map (getMigrationState sys)

/-- Result of `cancelMigration` (component/lib.ts, lines 296-309): the status
it returns together with the argument of the `ctx.scheduler.cancel` call if
one was made (`some none` would mean `cancel` was invoked with the
non-null-asserted `undefined` workerId). -/
structure CancelEffects where
  status : MigrationStatus
  schedulerCancelArg : Option (Option Nat)
deriving DecidableEq, Repr

/-- Function `cancelMigration` (component/lib.ts, lines 296-309).  Note the source
guard is `if (!migration.workerId) { await ctx.scheduler.cancel(migration.workerId!) }`:
the scheduler-cancel call happens only when `workerId` is *absent*. -/
def cancelMigration (sys : Nat → Option WorkerDoc) (m : MigrationDoc) :
    CancelEffects :=
  let state := getMigrationState sys m
  if state.isDone then { status := state, schedulerCancelArg := none }
  else if state.state == .inProgress then
    if m.workerId == none then
      { status := { state with state := .canceled }
        schedulerCancelArg := some m.workerId }
    else
      { status := { state with state := .canceled }
        schedulerCancelArg := none }
  else { status := state, schedulerCancelArg := none }

/-- Outcome of the `cancel` mutation (component/lib.ts, lines 274-294). -/
inductive CancelOutcome where
  | thrown (msg : String)
  | returned (status : MigrationStatus) (schedulerCancelArg : Option (Option Nat))
deriving DecidableEq, Repr

/-- Mutation `cancel` (component/lib.ts, lines 274-294).  Throws when no row with the
requested name exists; otherwise delegates to `cancelMigration`.  It never
writes the `migrations` table. -/
def cancel (sys : Nat → Option WorkerDoc) (db : String → Option MigrationDoc)
    (name : String) : CancelOutcome :=
  match db name with
  | none => .thrown ("Migration " ++ name ++ " not found")
  | some m =>
    let eff := cancelMigration sys m
    .returned eff.status eff.schedulerCancelArg

/-- One page of `clearAll` (component/lib.ts, lines 333-353).  `table` is the
`migrations` table in ascending `_creationTime` order, rows paired with
their creation time.  Returns the deleted rows and the `before` argument of
the recursive reschedule, if any.  The query filters only on
`_creationTime <= (before ?? now)`; `isDone` is not consulted. -/
def clearAllPage (now : Nat) (before : Option Nat)
    (table : List (Nat × MigrationDoc)) :
    List (Nat × MigrationDoc) × Option Nat :=
  let cutoff := before.getD now
  let results := ((table.filter (fun r => r.1 ≤ cutoff)).reverse).take 100
  (results,
    if results.length == 100 then results.getLast?.map (·.1) else none)

/-- One `{name, fnHandle}` entry of the `next` argument of `migrate`. -/
structure NextFn where
  name : String
  fnHandle : String
deriving DecidableEq, Repr, BEq

/-- The arguments of the component `migrate` mutation
(`runMigrationArgs`, component/lib.ts, lines 24-40). -/
structure MigrateArgs where
  name : String
  fnHandle : String
  cursor : Option (Option String) := none
  batchSize : Option Int := none
  oneBatchOnly : Option Bool := none
  next : Option (List NextFn) := none
  dryRun : Bool
deriving DecidableEq, Repr, BEq

/-- What `ctx.runMutation(fnHandle, {cursor, batchSize, dryRun})` can do, as
seen by the orchestrator: return a `MigrationResult` (with the per-record
patches the sub-mutation committed), throw the structured
`ConvexError {kind: "DRY RUN", result}` signal, or throw an ordinary error.
On the two throwing constructors the sub-mutation's own writes are rolled
back by the runtime, so they carry no patches. -/
inductive RunOutcome where
  | ok (r : MigrationResult) (patches : List (Nat × Int))
  | dryRunSignal (r : MigrationResult)
  | err (msg : String)
deriving DecidableEq, Repr

/-- How one invocation of the `migrate` mutation terminates. -/
inductive MigrateOutcome where
  | thrown (msg : String)
  | dryRunThrown (status : MigrationStatus)
  | returned (status : MigrationStatus)
deriving DecidableEq, Repr

/-- Committed effects of one invocation of `migrate`: its termination, the
committed `migrations` table (by name), the committed self-reschedule and
series-chain schedule calls, the committed target-collection patches of the
inner page run, and whether the page mutation was invoked at all.  On a
throwing termination the Convex runtime rolls the transaction back, so
`db` is the input table and the other effect fields are empty. -/
structure MigrateResult where
  outcome : MigrateOutcome
  db : String → Option MigrationDoc
  scheduledSelf : Option MigrateArgs
  scheduledNext : Option (NextFn × List NextFn)
  patches : List (Nat × Int)
  ranPage : Bool

/-- The batch-size guard of `migrate` (component/lib.ts, lines 48-50). -/
def invalidBatchSize (b : Option Int) : Bool :=
  b.any (fun x => x ≤ 0)

/-- The fnHandle guard of `migrate` (component/lib.ts, line 51):
`fnHandle.startsWith("function://")`, expressed as a character-list prefix
test so that it evaluates inside proofs. -/
def validFnHandle (s : String) : Bool :=
  "function://".data.isPrefixOf s.data

/-- Step 1 of `migrate` (component/lib.ts, lines 59-72): load the row by
name, or insert a fresh one with `cursor = args.cursor ?? null`. -/
def initialState (now : Nat) (db : String → Option MigrationDoc)
    (a : MigrateArgs) : MigrationDoc :=
  (db a.name).getD
    { name := a.name
      cursor := a.cursor.getD none
      isDone := false
      processed := 0
      latestStart := now }

/-- Condition `state.cursor !== args.cursor` (component/lib.ts, line 75): true also
when the argument cursor is absent (`undefined`), since the stored cursor is
always a string or `null`. -/
def cursorMismatch (st : MigrationDoc) (a : MigrateArgs) : Bool :=
  !(a.cursor == some st.cursor)

/-- The duplicate-start / race guard of `migrate` (component/lib.ts, lines
80-89): the cursor differs and a live worker exists. -/
def raceNoOp (sys : Nat → Option WorkerDoc) (st : MigrationDoc)
    (a : MigrateArgs) : Bool :=
  cursorMismatch st a && isLive (st.workerId.bind sys)

/-- Case 2 of the cursor reconciliation (component/lib.ts, lines 91-97): on a
mismatch with an explicit cursor argument, overwrite the cursor and reset
progress; an absent cursor argument leaves the row alone. -/
def reconciledState (now : Nat) (st : MigrationDoc) (a : MigrateArgs) :
    MigrationDoc :=
  if cursorMismatch st a then
    match a.cursor with
    | some c =>
      { st with cursor := c, isDone := false, latestStart := now,
                latestEnd := none, processed := 0 }
    | none => st
  else st

/-- Function `updateState` (component/lib.ts, lines 101-108): merge a page result
into the row. -/
def updateState (now : Nat) (st : MigrationDoc) (r : MigrationResult) :
    MigrationDoc :=
  { st with
    cursor := some r.continueCursor
    isDone := r.isDone
    processed := st.processed + r.processed
    latestEnd :=
      if r.isDone && st.latestEnd == none then some now else st.latestEnd }

/-- The series-chain scan (component/lib.ts, lines 137-158): find the first
entry of `next` whose row is absent or not done; it is scheduled with the
remainder of the list as its own `next`. -/
def findNext (db : String → Option MigrationDoc) :
    List NextFn → Option (NextFn × List NextFn)
  | [] => none
  | n :: rest =>
    match db n.name with
    | some d => if d.isDone then findNext db rest else some (n, rest)
    | none => some (n, rest)

/-- Write `ctx.db.patch(state._id, state)` on the row keyed by `name`
(component/lib.ts, line 191); also stands for the committed insert of a
fresh row. -/
def commitRow (db : String → Option MigrationDoc) (name : String)
    (st : MigrationDoc) : String → Option MigrationDoc :=
  fun n => if n = name then some st else db n

/-- Steps 3 and 4 of `migrate` (component/lib.ts, lines 125-201) for an
invocation whose try-block did not throw: decide the next action
(stop after one batch / self-reschedule / chain), then persist — except that
a dry run throws at line 196 and rolls everything back. -/
def finishMigrate (sys : Nat → Option WorkerDoc)
    (newWorkerId : Nat) (db : String → Option MigrationDoc)
    (a : MigrateArgs) (state2 : MigrationDoc) (patches : List (Nat × Int))
    (ranPage : Bool) : MigrateResult :=
  let step3 :
      MigrationDoc × Option MigrateArgs × Option (NextFn × List NextFn) :=
    if a.oneBatchOnly == some true then
      ({ state2 with workerId := none }, none, none)
    else if !state2.isDone then
      ({ state2 with workerId := some newWorkerId },
        some { a with cursor := some state2.cursor }, none)
    else
      ({ state2 with workerId := none }, none, findNext db (a.next.getD []))
  if a.dryRun then
    { outcome := .thrown
        "Error: Dry run attempted to update state - rolling back transaction."
      db := db
      scheduledSelf := none
      scheduledNext := none
      patches := []
      ranPage := ranPage }
  else
    { outcome := .returned (getMigrationState sys step3.1)
      db := commitRow db a.name step3.1
      scheduledSelf := step3.2.1
      scheduledNext := step3.2.2
      patches := patches
      ranPage := ranPage }

/-- The catch-block of `migrate` (component/lib.ts, lines 170-188) when the
request is a dry run: wrap the would-be status into the structured
`ConvexError {kind: "DRY RUN"}` and throw it, rolling the transaction
back. -/
def dryRunCatch (sys : Nat → Option WorkerDoc)
    (db : String → Option MigrationDoc) (a : MigrateArgs)
    (stC : MigrationDoc) : MigrateResult :=
  let status :=
    { getMigrationState sys stC with
      batchSize := a.batchSize
      next := a.next.map (fun l => l.map (·.name)) }
  { outcome := .dryRunThrown status
    db := db
    scheduledSelf := none
    scheduledNext := none
    patches := []
    ranPage := true }

/-- The catch-block of `migrate` for a genuine run: record the error, clear
the worker reference, then fall through to step 4, which commits the row and
returns the (failed) status.  Nothing is scheduled. -/
def errorCatch (sys : Nat → Option WorkerDoc)
    (db : String → Option MigrationDoc) (a : MigrateArgs)
    (stC : MigrationDoc) : MigrateResult :=
  { outcome := .returned (getMigrationState sys stC)
    db := commitRow db a.name stC
    scheduledSelf := none
    scheduledNext := none
    patches := []
    ranPage := true }

/-- The `migrate` mutation (component/lib.ts, lines 42-202).

`sys` is the scheduled-function system table, `newWorkerId` the id the
scheduler would assign to a self-reschedule, `run` the behaviour of the
migration function handle (the client-side page mutation), `db` the
`migrations` table keyed by name. -/
def migrate (now : Nat) (sys : Nat → Option WorkerDoc) (newWorkerId : Nat)
    (run : Option String → Option Int → Bool → RunOutcome)
    (db : String → Option MigrationDoc) (a : MigrateArgs) : MigrateResult :=
  if invalidBatchSize a.batchSize then
    { outcome := .thrown "Batch size must be greater than 0"
      db := db, scheduledSelf := none, scheduledNext := none
      patches := [], ranPage := false }
  else if !(validFnHandle a.fnHandle) then
    { outcome := .thrown "Invalid fnHandle"
      db := db, scheduledSelf := none, scheduledNext := none
      patches := [], ranPage := false }
  else
    let state0 := initialState now db a
    if raceNoOp sys state0 a then
      { outcome := .returned (getMigrationState sys state0)
        db := commitRow db a.name state0
        scheduledSelf := none, scheduledNext := none
        patches := [], ranPage := false }
    else
      let state1 := reconciledState now state0 a
      if state1.isDone then
        finishMigrate sys newWorkerId db a state1 [] false
      else
        match run state1.cursor a.batchSize a.dryRun with
        | .ok r patches =>
          finishMigrate sys newWorkerId db a
            { updateState now state1 r with error := none } patches true
        | .dryRunSignal r =>
          if a.dryRun then
            dryRunCatch sys db a
              { updateState now state1 r with workerId := none }
          else
            errorCatch sys db a
              { state1 with workerId := none,
                            error := some "ConvexError: DRY RUN" }
        | .err msg =>
          if a.dryRun then
            dryRunCatch sys db a
              { state1 with workerId := none, error := some msg }
          else
            errorCatch sys db a
              { state1 with workerId := none, error := some msg }

/-- A record of the target collection as the page processor sees it: its id
and a single mutable payload value standing for its fields. -/
structure TDoc where
  id : Nat
  val : Int
deriving DecidableEq, Repr

/-- What `range.paginate({cursor, numItems})` returns. -/
structure PageRes where
  continueCursor : String
  page : List TDoc
  isDone : Bool
deriving DecidableEq, Repr

/-- The arguments of a `define`d migration mutation (`migrationArgs` in
shared.ts): `fn`, `cursor`, `batchSize`, `dryRun`, `next`. -/
structure ClientArgs where
  fn : Option String := none
  cursor : Option (Option String) := none
  batchSize : Option Int := none
  dryRun : Option Bool := none
  next : Option (List String) := none
deriving DecidableEq, Repr

/-- How a `define`d migration mutation terminates: the interactive
(`args.fn` present) path, a normal return carrying the committed patches, the
structured dry-run throw, or an ordinary throw. -/
inductive DefineOutcome where
  | interactive
  | ok (r : MigrationResult) (patches : List (Nat × Int))
  | dryRunSignal (r : MigrationResult)
  | err (msg : String)
deriving DecidableEq, Repr

/-- Termination of a `define`d mutation plus the `(cursor, numItems)` pair it
passed to `paginate`, when pagination was reached. -/
structure DefineResult where
  outcome : DefineOutcome
  pageRequest : Option (Option String × Int) := none
deriving DecidableEq, Repr

/-- Constant `DEFAULT_BATCH_SIZE` (client/index.ts, line 721). -/
def DEFAULT_BATCH_SIZE : Int := 100

/-- The default-batch-size resolution of `define` (client/index.ts, lines
971-974): the per-function default, else the constructor option, else
`DEFAULT_BATCH_SIZE`. -/
def resolveDefaultBatchSize (functionDefault optionsDefault : Option Int) :
    Int :=
  functionDefault.getD (optionsDefault.getD DEFAULT_BATCH_SIZE)

/-- Computation `const numItems = args.batchSize || defaultBatchSize` (client/index.ts,
line 1008): a missing *or zero* batch size falls back to the default
(`0` is falsy in JS); any other value, even negative, is used as-is. -/
def numItemsOf (defaultBatchSize : Int) (batchSize : Option Int) : Int :=
  match batchSize with
  | none => defaultBatchSize
  | some b => if b == 0 then defaultBatchSize else b

/-- The sequential `doOne` loop of the page (client/index.ts, lines
1048-1068): apply the transform to each record in page order; a non-empty
partial update becomes a patch `(id, value)`; a raising transform aborts the
whole page with the *original* error (the record id is only written to the
console, `console.error("Document failed: " + doc._id)`, not attached to the
propagated error). -/
def processPage (migrateOne : TDoc → Except String (Option Int)) :
    List TDoc → Except String (List (Nat × Int))
  | [] => .ok []
  | d :: ds =>
    match migrateOne d with
    | .error e => .error e
    | .ok none => processPage migrateOne ds
    | .ok (some v) => (processPage migrateOne ds).map ((d.id, v) :: ·)

/-- The handler of a `define`d migration mutation (client/index.ts, lines
984-1113).  `paginate` is the external paging primitive over the target
table (or custom range), `migrateOne` the user transform.  The `args.fn`
branch (one-off interactive execution, line 985-990) delegates to
`_runInteractive` and is outside the modelled claims; it is represented by
the opaque `interactive` outcome. -/
def runDefine (defaultBatchSize : Int)
    (paginate : Option String → Int → PageRes)
    (migrateOne : TDoc → Except String (Option Int))
    (args : ClientArgs) : DefineResult :=
  if args.fn.isSome then { outcome := .interactive }
  else if args.next.any (fun l => !l.isEmpty) then
    { outcome := .err "You can only pass next if you also provide fn" }
  else
    let numItems := numItemsOf defaultBatchSize args.batchSize
    let cursorUnset := args.cursor == none || args.cursor == some (some "")
    let fixed : Option (Option String × Option Bool) :=
      if cursorUnset then
        match args.dryRun with
        | none => some (none, some true)
        | some true => some (none, some true)
        | some false => none
      else some (args.cursor.getD none, args.dryRun)
    match fixed with
    | none =>
      { outcome := .err "Cursor must be specified for a one-off execution." }
    | some (c, dr) =>
      let pr := paginate c numItems
      match processPage migrateOne pr.page with
      | .error e => { outcome := .err e, pageRequest := some (c, numItems) }
      | .ok patches =>
        let result : MigrationResult :=
          { continueCursor := pr.continueCursor
            isDone := pr.isDone
            processed := pr.page.length }
        if dr == some true then
          { outcome := .dryRunSignal result, pageRequest := some (c, numItems) }
        else
          { outcome := .ok result patches, pageRequest := some (c, numItems) }

/-- The component's view of calling a `define`d migration mutation through
its function handle: the component always supplies a defined `cursor` and
`dryRun` and neither `fn` nor `next` (component/lib.ts, lines 113-120). -/
def clientRun (defaultBatchSize : Int)
    (paginate : Option String → Int → PageRes)
    (migrateOne : TDoc → Except String (Option Int)) :
    Option String → Option Int → Bool → RunOutcome :=
  fun cursor batchSize dryRun =>
    match (runDefine defaultBatchSize paginate migrateOne
        { cursor := some cursor, batchSize := batchSize,
          dryRun := some dryRun }).outcome with
    | .ok r p => .ok r p
    | .dryRunSignal r => .dryRunSignal r
    | .err m => .err m
    | .interactive => .err "unreachable: fn is not provided"

/-- The status precedence exactly as claim C4 words it, as a standalone
function of the row's `isDone`, of whether a persisted `error` *exists*
(field present, possibly empty), and of the worker's liveness state. -/
def claimedStatePrecedence (isDone : Bool) (errorExists : Bool)
    (worker : Option WorkerState) : MStatus :=
  if isDone then .success
  else if errorExists || worker == some .failed then .failed
  else if worker == some .canceled then .canceled
  else if worker == some .pending || worker == some .inProgress then
    .inProgress
  else .unknown

/-- A migrations row whose persisted `error` is the *empty* string: present,
but falsy in JS. -/
def emptyErrorDoc : MigrationDoc :=
  { name := "mig"
    cursor := none
    isDone := false
    processed := 0
    latestStart := 0
    error := some "" }

/-- The scheduler system table of the C1 scenario: task 1 is pending. -/
def c1sys : Nat → Option WorkerDoc :=
  fun i => if i == 1 then some { state := .pending } else none

/-- A migrations row with a live (pending) worker task, id 1. -/
def c1doc : MigrationDoc :=
  { name := "mig"
    cursor := some "cur5"
    isDone := false
    processed := 42
    latestStart := 1
    workerId := some 1 }

/-- The migrations table of the C1 scenario. -/
def c1db : String → Option MigrationDoc :=
  fun n => if n == "mig" then some c1doc else none

/-- A non-terminal migrations row used in the clearAll scenario. -/
def c5doc : MigrationDoc :=
  { name := "live"
    cursor := some "c"
    isDone := false
    processed := 3
    latestStart := 0 }
/-- An empty scheduled-function system table. -/
def emptySys : Nat → Option WorkerDoc := fun _ => none

/-- An empty migrations table. -/
def emptyDb : String → Option MigrationDoc := fun _ => none

/-- Claim C4, counterexample: for a row whose persisted `error` is the empty
string (present but JS-falsy) and that has no worker, the code projects
`unknown` while the claimed precedence ("a persisted error exists ⇒ failed")
demands `failed`. -/
theorem getMigrationState_emptyError_differs_from_claim :
    (getMigrationState emptySys emptyErrorDoc).state = .unknown ∧
    claimedStatePrecedence emptyErrorDoc.isDone emptyErrorDoc.error.isSome
      ((emptyErrorDoc.workerId.bind emptySys).map (·.state)) = .failed ∧
    (getMigrationState emptySys emptyErrorDoc).state ≠
      claimedStatePrecedence emptyErrorDoc.isDone emptyErrorDoc.error.isSome
        ((emptyErrorDoc.workerId.bind emptySys).map (·.state)) := by
  decide

/-- Claim C4 (amended): the projected status follows the claimed precedence
with "a persisted error exists" read as "a persisted *non-empty* error
exists" (JS truthiness of the `error` string): `isDone` ⇒ success; else
non-empty error or failed worker ⇒ failed; else canceled worker ⇒ canceled;
else pending/in-progress worker ⇒ inProgress; else unknown. -/
theorem getMigrationState_state_precedence (sys : Nat → Option WorkerDoc)
    (m : MigrationDoc) :
    (getMigrationState sys m).state
      = claimedStatePrecedence m.isDone (errTruthy m.error)
          ((m.workerId.bind sys).map (·.state)) := by
  simp only [getMigrationState, claimedStatePrecedence]
  cases hw : m.workerId.bind sys with
  | none =>
    cases hd : m.isDone <;> cases he : errTruthy m.error <;>
      simp [hw, hd, he]
  | some w =>
    cases hd : m.isDone <;> cases he : errTruthy m.error <;>
      cases hws : w.state <;> simp [hw, hd, he, hws] <;> decide
/-- Claim C9: cancelling a name with no stored migration row throws
"Migration <name> not found", while the status query for the same name
synthesizes an `unknown` entry (processed 0, not done) instead. -/
theorem cancel_missing_name_throws (sys : Nat → Option WorkerDoc)
    (db : String → Option MigrationDoc) (name : String)
    (h : db name = none) :
    cancel sys db name = .thrown ("Migration " ++ name ++ " not found") ∧
    (getStatus sys db [] (some [name]) none).map (·.state) = [.unknown] ∧
    (getStatus sys db [] (some [name]) none).map (·.processed) = [0] ∧
    (getStatus sys db [] (some [name]) none).map (·.isDone) = [false] := by
  refine ⟨?_, ?_, ?_, ?_⟩ <;>
    simp [cancel, getStatus, h, syntheticDoc, getMigrationState, errTruthy]

/-- Witness for C9 at the concrete name "foo" over an empty table. -/
theorem cancel_missing_name_throws_witness :
    cancel emptySys emptyDb "foo" =
      .thrown ("Migration " ++ "foo" ++ " not found") ∧
    (getStatus emptySys emptyDb [] (some ["foo"]) none).map (·.state) =
      [.unknown] ∧
    (getStatus emptySys emptyDb [] (some ["foo"]) none).map (·.processed) =
      [0] ∧
    (getStatus emptySys emptyDb [] (some ["foo"]) none).map (·.isDone) =
      [false] :=
  cancel_missing_name_throws emptySys emptyDb "foo" rfl

/-- Claim C1 (code bug): for a migration with a live pending worker task
(id 1), `cancel` projects `inProgress`, flips the returned state to
`canceled` and leaves the row's cursor/processed untouched — but it never
invokes the scheduler's cancel primitive (`schedulerCancelArg = none`),
because the source guard is inverted
(`if (!migration.workerId) { await ctx.scheduler.cancel(migration.workerId!) }`,
component/lib.ts lines 302-304): the live task is left running. -/
theorem cancel_live_worker_not_revoked :
    isLive (c1doc.workerId.bind c1sys) = true ∧
    (getMigrationState c1sys c1doc).state = .inProgress ∧
    cancel c1sys c1db "mig" =
      .returned
        { name := "mig", cursor := some "cur5", processed := 42,
          isDone := false, latestStart := 1, latestEnd := none,
          error := none, state := .canceled, batchSize := none,
          next := none }
        none := by
  decide

/-- Claim C6 (code bug): the status query over requested names returns one
synthesized `unknown` entry per never-run name (processed 0, not done) but
in the *reverse* of the input order, because `getStatus` reverses the
fetched docs (component/lib.ts line 235) even on the names branch — against
the client's own doc comment "The status of the migrations, in the order of
the input" (client/index.ts line 1232). -/
theorem getStatus_names_reversed_order :
    (getStatus emptySys emptyDb [] (some ["a", "b"]) none).map (·.name) =
      ["b", "a"] ∧
    (getStatus emptySys emptyDb [] (some ["a", "b"]) none).map (·.state) =
      [.unknown, .unknown] ∧
    (getStatus emptySys emptyDb [] (some ["a", "b"]) none).map (·.processed) =
      [0, 0] ∧
    (getStatus emptySys emptyDb [] (some ["a", "b"]) none).map (·.isDone) =
      [false, false] := by
  decide

/-- Claim C5, counterexample: `clearAll` with cutoff 10 deletes the row
created at time 5 although it is *not* terminal (`isDone = false`) — the
query ranges over `by_creation_time` only and never consults `isDone`. -/
theorem clearAll_deletes_nonterminal_row :
    (clearAllPage 0 (some 10) [(5, c5doc)]).1 = [(5, c5doc)] ∧
    c5doc.isDone = false := by
  decide

/-- Claim C5 (amended): one page of `clearAll(before?)` deletes rows purely
by creation time — every deleted row was created at or before the cutoff
(`before`, defaulting to now), and, whenever at most 100 rows match the
cutoff, *every* matching row is deleted regardless of its `isDone` value. -/
theorem clearAllPage_deletes_by_creation_time (now : Nat)
    (before : Option Nat) (table : List (Nat × MigrationDoc)) :
    (∀ r ∈ (clearAllPage now before table).1, r.1 ≤ before.getD now) ∧
    ((table.filter (fun r => r.1 ≤ before.getD now)).length ≤ 100 →
      ∀ r ∈ table, r.1 ≤ before.getD now →
        r ∈ (clearAllPage now before table).1) := by
  constructor
  · intro r hr
    unfold clearAllPage at hr
    have h1 := List.take_subset 100 _ hr
    have h2 := List.mem_reverse.mp h1
    have h3 := List.mem_filter.mp h2
    exact of_decide_eq_true h3.2
  · intro hlen r hr hle
    have hmem : r ∈ table.filter (fun r => decide (r.1 ≤ before.getD now)) :=
      List.mem_filter.mpr ⟨hr, decide_eq_true hle⟩
    show r ∈ ((table.filter (fun r => r.1 ≤ before.getD now)).reverse).take 100
    rw [List.take_of_length_le]
    · exact List.mem_reverse.mpr hmem
    · rw [List.length_reverse]; exact hlen

/-- Witness for C5's amended theorem on the one-row table of the
counterexample: the non-terminal row at time 5 is among the deletions for
cutoff 10. -/
theorem clearAllPage_deletes_by_creation_time_witness :
    (5, c5doc) ∈ (clearAllPage 0 (some 10) [(5, c5doc)]).1 :=
  (clearAllPage_deletes_by_creation_time 0 (some 10) [(5, c5doc)]).2
    (by decide) (5, c5doc) (List.mem_cons_self _ _) (by decide)
/-- Patching a row with the value it already holds leaves the table
unchanged. -/
theorem commitRow_of_mem (db : String → Option MigrationDoc) (name : String)
    (st : MigrationDoc) (h : db name = some st) :
    commitRow db name st = db := by
  funext n
  unfold commitRow
  by_cases hn : n = name
  · rw [if_pos hn, hn, h]
  · rw [if_neg hn]

/-- If the duplicate-start guard fires, the row existed already (a freshly
inserted row has no worker reference, hence no live worker). -/
theorem raceNoOp_row (now : Nat) (sys : Nat → Option WorkerDoc)
    (db : String → Option MigrationDoc) (a : MigrateArgs)
    (h : raceNoOp sys (initialState now db a) a = true) :
    db a.name = some (initialState now db a) := by
  cases hdb : db a.name with
  | some st => simp [initialState, hdb]
  | none =>
    exfalso
    have hwid : (initialState now db a).workerId = none := by
      simp [initialState, hdb]
    unfold raceNoOp at h
    rw [hwid] at h
    simp [isLive] at h

/-- Claim C3: when the requested cursor differs from the persisted cursor
and a live (pending or in-progress) worker task exists for the job, a
(validly parameterized) `migrate` invocation returns the current projected
status, commits no change to any `migrations` row, schedules nothing, runs
no page, and commits no record patch. -/
theorem migrate_cursor_mismatch_live_worker_noop (now : Nat)
    (sys : Nat → Option WorkerDoc) (newWorkerId : Nat)
    (run : Option String → Option Int → Bool → RunOutcome)
    (db : String → Option MigrationDoc) (a : MigrateArgs)
    (st : MigrationDoc) (w : Nat) (wd : WorkerDoc)
    (hrow : db a.name = some st)
    (hmis : a.cursor ≠ some st.cursor)
    (hwid : st.workerId = some w)
    (hsys : sys w = some wd)
    (hlive : wd.state = .pending ∨ wd.state = .inProgress)
    (hbs : invalidBatchSize a.batchSize = false)
    (hfn : validFnHandle a.fnHandle = true) :
    migrate now sys newWorkerId run db a =
      { outcome := .returned (getMigrationState sys st)
        db := db
        scheduledSelf := none
        scheduledNext := none
        patches := []
        ranPage := false } := by
  have hst : initialState now db a = st := by simp [initialState, hrow]
  have h1 : cursorMismatch st a = true := by
    simp [cursorMismatch, hmis]
  have h2 : isLive (st.workerId.bind sys) = true := by
    rw [hwid]
    simp only [Option.some_bind, hsys]
    rcases hlive with h | h <;> simp [isLive, h] <;> decide
  have hrace : raceNoOp sys st a = true := by
    unfold raceNoOp
    rw [h1, h2]
    rfl
  simp only [migrate, hst, hbs, hfn, hrace, Bool.not_true,
    Bool.false_eq_true, if_false, if_true,
    commitRow_of_mem db a.name st hrow]
/-- Witness for C3: over the table holding `c1doc` (live pending worker 1),
an invocation with an absent cursor argument no-ops. -/
theorem migrate_cursor_mismatch_live_worker_noop_witness :
    migrate 0 c1sys 9 (fun _ _ _ => .err "e") c1db
      { name := "mig", fnHandle := "function://h", dryRun := false } =
      { outcome := .returned (getMigrationState c1sys c1doc)
        db := c1db
        scheduledSelf := none
        scheduledNext := none
        patches := []
        ranPage := false } :=
  migrate_cursor_mismatch_live_worker_noop 0 c1sys 9 (fun _ _ _ => .err "e")
    c1db { name := "mig", fnHandle := "function://h", dryRun := false }
    c1doc 1 { state := .pending }
    (by decide) (by decide) (by decide) (by decide) (Or.inl rfl)
    (by decide) (by decide)
/-- On a dry run, step 4 of `migrate` always throws, so a try-block that ran
to completion still commits nothing. -/
theorem finishMigrate_dryRun (sys : Nat → Option WorkerDoc)
    (newWorkerId : Nat) (db : String → Option MigrationDoc)
    (a : MigrateArgs) (st : MigrationDoc) (p : List (Nat × Int))
    (rp : Bool) (hdry : a.dryRun = true) :
    finishMigrate sys newWorkerId db a st p rp =
      { outcome := .thrown
          "Error: Dry run attempted to update state - rolling back transaction."
        db := db
        scheduledSelf := none
        scheduledNext := none
        patches := []
        ranPage := rp } := by
  unfold finishMigrate
  rw [hdry]
  simp

/-- Claim C2: a dry-run invocation of the orchestrator commits nothing —
the `migrations` table (hence the persisted `processed` and `cursor`),
the schedule queue and the target collection (no committed patches) are all
untouched, so a second identical dry run produces exactly the same result
as the first. -/
theorem migrate_dryRun_no_persisted_changes (now : Nat)
    (sys : Nat → Option WorkerDoc) (newWorkerId : Nat)
    (run : Option String → Option Int → Bool → RunOutcome)
    (db : String → Option MigrationDoc) (a : MigrateArgs)
    (hdry : a.dryRun = true) :
    (migrate now sys newWorkerId run db a).db = db ∧
    (migrate now sys newWorkerId run db a).scheduledSelf = none ∧
    (migrate now sys newWorkerId run db a).scheduledNext = none ∧
    (migrate now sys newWorkerId run db a).patches = [] ∧
    migrate now sys newWorkerId run
        ((migrate now sys newWorkerId run db a).db) a
      = migrate now sys newWorkerId run db a := by
  have key : (migrate now sys newWorkerId run db a).db = db ∧
      (migrate now sys newWorkerId run db a).scheduledSelf = none ∧
      (migrate now sys newWorkerId run db a).scheduledNext = none ∧
      (migrate now sys newWorkerId run db a).patches = [] := by
    unfold migrate
    split
    · simp
    split
    · simp
    dsimp only
    split
    · rename_i h
      have hrow := raceNoOp_row now sys db a h
      simp [commitRow_of_mem _ _ _ hrow]
    split
    · simp [finishMigrate_dryRun _ _ _ _ _ _ _ hdry]
    split
    · simp [finishMigrate_dryRun _ _ _ _ _ _ _ hdry]
    all_goals simp [dryRunCatch]
  refine ⟨key.1, key.2.1, key.2.2.1, key.2.2.2, ?_⟩
  rw [key.1]
/-- Witness for C2: a dry run over the empty table whose page mutation
throws the structured dry-run signal commits nothing and is repeatable. -/
theorem migrate_dryRun_no_persisted_changes_witness :
    (migrate 0 emptySys 9
        (fun _ _ _ => .dryRunSignal { continueCursor := "c1", isDone := false,
                                      processed := 5 }) emptyDb
        { name := "m", fnHandle := "function://h", dryRun := true }).db =
      emptyDb ∧
    (migrate 0 emptySys 9
        (fun _ _ _ => .dryRunSignal { continueCursor := "c1", isDone := false,
                                      processed := 5 }) emptyDb
        { name := "m", fnHandle := "function://h", dryRun := true
        }).scheduledSelf = none ∧
    (migrate 0 emptySys 9
        (fun _ _ _ => .dryRunSignal { continueCursor := "c1", isDone := false,
                                      processed := 5 }) emptyDb
        { name := "m", fnHandle := "function://h", dryRun := true
        }).scheduledNext = none ∧
    (migrate 0 emptySys 9
        (fun _ _ _ => .dryRunSignal { continueCursor := "c1", isDone := false,
                                      processed := 5 }) emptyDb
        { name := "m", fnHandle := "function://h", dryRun := true
        }).patches = [] ∧
    migrate 0 emptySys 9
        (fun _ _ _ => .dryRunSignal { continueCursor := "c1", isDone := false,
                                      processed := 5 })
        ((migrate 0 emptySys 9
          (fun _ _ _ => .dryRunSignal { continueCursor := "c1",
                                        isDone := false, processed := 5 })
          emptyDb
          { name := "m", fnHandle := "function://h", dryRun := true }).db)
        { name := "m", fnHandle := "function://h", dryRun := true }
      = migrate 0 emptySys 9
          (fun _ _ _ => .dryRunSignal { continueCursor := "c1",
                                        isDone := false, processed := 5 })
          emptyDb
          { name := "m", fnHandle := "function://h", dryRun := true } :=
  migrate_dryRun_no_persisted_changes 0 emptySys 9
    (fun _ _ _ => .dryRunSignal { continueCursor := "c1", isDone := false,
                                  processed := 5 }) emptyDb
    { name := "m", fnHandle := "function://h", dryRun := true } rfl

/-- A completed migration row used in the C7 scenario. -/
def c7doc : MigrationDoc :=
  { name := "m"
    cursor := some "end"
    isDone := true
    processed := 10
    latestStart := 0
    latestEnd := some 1 }

/-- The migrations table of the C7 scenario. -/
def c7db : String → Option MigrationDoc :=
  fun n => if n == "m" then some c7doc else none

/-- Claim C7: once a job's persisted `isDone` is true, re-invoking the
orchestrator without an explicit cursor argument leaves the persisted
`processed` count unchanged, never invokes the page mutation (no page is
run), commits no record patch and schedules no further batch of this job. -/
theorem migrate_done_job_idempotent (now : Nat)
    (sys : Nat → Option WorkerDoc) (newWorkerId : Nat)
    (run : Option String → Option Int → Bool → RunOutcome)
    (db : String → Option MigrationDoc) (a : MigrateArgs)
    (st : MigrationDoc)
    (hrow : db a.name = some st)
    (hdone : st.isDone = true)
    (hcur : a.cursor = none)
    (hbs : invalidBatchSize a.batchSize = false)
    (hfn : validFnHandle a.fnHandle = true) :
    ((migrate now sys newWorkerId run db a).db a.name).map (·.processed)
        = some st.processed ∧
    (migrate now sys newWorkerId run db a).ranPage = false ∧
    (migrate now sys newWorkerId run db a).patches = [] ∧
    (migrate now sys newWorkerId run db a).scheduledSelf = none := by
  have hst : initialState now db a = st := by simp [initialState, hrow]
  have hrec : reconciledState now st a = st := by
    unfold reconciledState
    rw [hcur]
    split <;> rfl
  have hmain : migrate now sys newWorkerId run db a =
      if raceNoOp sys st a then
        { outcome := .returned (getMigrationState sys st)
          db := commitRow db a.name st
          scheduledSelf := none, scheduledNext := none
          patches := [], ranPage := false }
      else finishMigrate sys newWorkerId db a st [] false := by
    simp only [migrate, hbs, hfn, Bool.not_true, Bool.false_eq_true,
      if_false, hst, hrec, hdone, eq_self_iff_true, if_true]
  rw [hmain]
  split
  · simp [commitRow]
  · unfold finishMigrate
    dsimp only
    split
    · simp [hrow]
    · split <;> simp_all [commitRow]

/-- Witness for C7 on the completed row `c7doc`. -/
theorem migrate_done_job_idempotent_witness :
    ((migrate 3 emptySys 9 (fun _ _ _ => .err "e") c7db
        { name := "m", fnHandle := "function://h", dryRun := false }).db
          "m").map (·.processed) = some c7doc.processed ∧
    (migrate 3 emptySys 9 (fun _ _ _ => .err "e") c7db
        { name := "m", fnHandle := "function://h", dryRun := false
        }).ranPage = false ∧
    (migrate 3 emptySys 9 (fun _ _ _ => .err "e") c7db
        { name := "m", fnHandle := "function://h", dryRun := false
        }).patches = [] ∧
    (migrate 3 emptySys 9 (fun _ _ _ => .err "e") c7db
        { name := "m", fnHandle := "function://h", dryRun := false
        }).scheduledSelf = none :=
  migrate_done_job_idempotent 3 emptySys 9 (fun _ _ _ => .err "e") c7db
    { name := "m", fnHandle := "function://h", dryRun := false } c7doc
    (by decide) (by decide) (by decide) (by decide) (by decide)
/-- The row as the catch-block of `migrate` persists it after a failed page:
worker reference cleared, error message recorded. -/
def failedState (st : MigrationDoc) (msg : String) : MigrationDoc :=
  { st with workerId := none, error := some msg }

/-- When the transform raises on some record of the page, the `define`d
mutation propagates exactly the transform's own error message (the failing
record's id is only logged, never attached). -/
theorem clientRun_err (d : Int) (pag : Option String → Int → PageRes)
    (mo : TDoc → Except String (Option Int)) (cursor : Option String)
    (bs : Option Int) (msg : String)
    (hc : cursor ≠ some "")
    (hp : processPage mo (pag cursor (numItemsOf d bs)).page = .error msg) :
    clientRun d pag mo cursor bs false = .err msg := by
  unfold clientRun runDefine
  simp [hc, hp]
/-- Claim C8 (amended): when the user transform raises on some record of the
page during a genuine (non-dry) run with no duplicate-start race, the whole
page aborts with no committed record patch, the transform's error *message*
(and only the message — the failing record's identifier is logged to the
console, not persisted) is stored on the row's `error` field, the worker
reference is cleared, and nothing further is scheduled. -/
theorem migrate_transform_error_aborts_page (now : Nat)
    (sys : Nat → Option WorkerDoc) (newWorkerId : Nat) (d : Int)
    (pag : Option String → Int → PageRes)
    (mo : TDoc → Except String (Option Int))
    (db : String → Option MigrationDoc) (a : MigrateArgs) (msg : String)
    (hdry : a.dryRun = false)
    (hbs : invalidBatchSize a.batchSize = false)
    (hfn : validFnHandle a.fnHandle = true)
    (hrace : raceNoOp sys (initialState now db a) a = false)
    (hnotdone : (reconciledState now (initialState now db a) a).isDone = false)
    (hc : (reconciledState now (initialState now db a) a).cursor ≠ some "")
    (hp : processPage mo
        (pag (reconciledState now (initialState now db a) a).cursor
          (numItemsOf d a.batchSize)).page = .error msg) :
    migrate now sys newWorkerId (clientRun d pag mo) db a =
      { outcome := .returned (getMigrationState sys
          (failedState (reconciledState now (initialState now db a) a) msg))
        db := commitRow db a.name
          (failedState (reconciledState now (initialState now db a) a) msg)
        scheduledSelf := none
        scheduledNext := none
        patches := []
        ranPage := true } ∧
    ((migrate now sys newWorkerId (clientRun d pag mo) db a).db a.name).map
        (·.error) = some (some msg) ∧
    ((migrate now sys newWorkerId (clientRun d pag mo) db a).db a.name).map
        (·.workerId) = some none := by
  have hrun : clientRun d pag mo
      (reconciledState now (initialState now db a) a).cursor a.batchSize
      false = .err msg :=
    clientRun_err d pag mo _ a.batchSize msg hc hp
  have hmain : migrate now sys newWorkerId (clientRun d pag mo) db a =
      errorCatch sys db a
        (failedState (reconciledState now (initialState now db a) a) msg) := by
    simp only [migrate, hbs, hfn, Bool.not_true, Bool.false_eq_true,
      if_false, hrace, hnotdone, hdry, hrun, failedState]
  rw [hmain]
  unfold errorCatch
  refine ⟨rfl, ?_, ?_⟩ <;> simp [commitRow, failedState]
/-- C8 scenario transform: raises the bare message "x" on the record with
id 7, changes nothing otherwise. -/
def c8mo : TDoc → Except String (Option Int) :=
  fun d => if d.id == 7 then .error "x" else .ok none

/-- C8 scenario paging primitive: a single page holding only record 7. -/
def c8pag : Option String → Int → PageRes :=
  fun _ _ =>
    { continueCursor := "c2", page := [{ id := 7, val := 0 }],
      isDone := false }

/-- Claim C8, counterexample to the claim as stated: running the composed
pipeline (orchestrator over the `define`d page mutation) where the
transform raises "x" on record 7 persists exactly `error = "x"` — the
failing record's identifier 7 appears nowhere in the persisted error
(the digit '7' does not occur in it), contrary to "the error message
together with the failing record's identifier is persisted". -/
theorem migrate_transform_error_message_lacks_id :
    c8mo { id := 7, val := 0 } = .error "x" ∧
    ((migrate 0 emptySys 9 (clientRun 100 c8pag c8mo) emptyDb
        { name := "m", fnHandle := "function://h", cursor := some none,
          dryRun := false }).db "m").map (·.error) = some (some "x") ∧
    ¬ '7' ∈ "x".data := by
  refine ⟨rfl, by rfl, by decide⟩

/-- Witness for C8's amended theorem on the record-7 scenario: the page
aborts, patches nothing, persists `error = "x"` and clears the worker. -/
theorem migrate_transform_error_aborts_page_witness :
    migrate 0 emptySys 9 (clientRun 100 c8pag c8mo) emptyDb
        { name := "m", fnHandle := "function://h", cursor := some none,
          dryRun := false } =
      { outcome := .returned (getMigrationState emptySys
          (failedState (reconciledState 0
            (initialState 0 emptyDb
              { name := "m", fnHandle := "function://h",
                cursor := some none, dryRun := false })
            { name := "m", fnHandle := "function://h", cursor := some none,
              dryRun := false }) "x"))
        db := commitRow emptyDb "m"
          (failedState (reconciledState 0
            (initialState 0 emptyDb
              { name := "m", fnHandle := "function://h",
                cursor := some none, dryRun := false })
            { name := "m", fnHandle := "function://h", cursor := some none,
              dryRun := false }) "x")
        scheduledSelf := none
        scheduledNext := none
        patches := []
        ranPage := true } ∧
    ((migrate 0 emptySys 9 (clientRun 100 c8pag c8mo) emptyDb
        { name := "m", fnHandle := "function://h", cursor := some none,
          dryRun := false }).db "m").map (·.error) = some (some "x") ∧
    ((migrate 0 emptySys 9 (clientRun 100 c8pag c8mo) emptyDb
        { name := "m", fnHandle := "function://h", cursor := some none,
          dryRun := false }).db "m").map (·.workerId) = some none :=
  migrate_transform_error_aborts_page 0 emptySys 9 100 c8pag c8mo emptyDb
    { name := "m", fnHandle := "function://h", cursor := some none,
      dryRun := false } "x"
    rfl (by decide) (by decide) (by decide) (by decide) (by decide)
    (by rfl)
/-- Claim C10: a `define`d migration mutation invoked directly (no `fn`)
with `batchSize = 0` does not fail on account of the batch size: `0` is
JS-falsy in `args.batchSize || defaultBatchSize`, so the run is identical
to one with no batch size at all, paginating with the configured default
(whose fallback chain bottoms out at `DEFAULT_BATCH_SIZE = 100`) — whereas
the component-level `migrate` mutation throws on any provided
`batchSize ≤ 0` before touching any state. -/
theorem define_batchSize_zero_uses_default :
    (∀ (d : Int) (pag : Option String → Int → PageRes)
        (mo : TDoc → Except String (Option Int)) (args : ClientArgs),
        args.batchSize = some 0 →
        runDefine d pag mo args
          = runDefine d pag mo { args with batchSize := none }) ∧
    resolveDefaultBatchSize none none = DEFAULT_BATCH_SIZE ∧
    DEFAULT_BATCH_SIZE = 100 ∧
    (runDefine 100 c8pag (fun _ => .ok none)
        { cursor := some none, batchSize := some 0,
          dryRun := some false }).pageRequest = some (none, 100) ∧
    (∀ (now : Nat) (sys : Nat → Option WorkerDoc) (newWorkerId : Nat)
        (run : Option String → Option Int → Bool → RunOutcome)
        (db : String → Option MigrationDoc) (a : MigrateArgs) (b : Int),
        a.batchSize = some b → b ≤ 0 →
        migrate now sys newWorkerId run db a =
          { outcome := .thrown "Batch size must be greater than 0"
            db := db
            scheduledSelf := none
            scheduledNext := none
            patches := []
            ranPage := false }) := by
  refine ⟨?_, rfl, rfl, rfl, ?_⟩
  · intro d pag mo args h0
    unfold runDefine
    simp [h0, numItemsOf]
  · intro now sys newWorkerId run db a b hb hle
    have hinv : invalidBatchSize a.batchSize = true := by
      unfold invalidBatchSize
      rw [hb]
      simpa using hle
    unfold migrate
    rw [hinv]
    rfl

/-- Witness for C10: `batchSize = 0` on the client is the same run as no
batch size, while the component throws on it. -/
theorem define_batchSize_zero_uses_default_witness :
    runDefine 100 c8pag (fun _ => .ok none)
        { cursor := some none, batchSize := some 0, dryRun := some false }
      = runDefine 100 c8pag (fun _ => .ok none)
        { cursor := some none, batchSize := none, dryRun := some false } ∧
    migrate 0 emptySys 9 (fun _ _ _ => .err "e") emptyDb
        { name := "m", fnHandle := "function://h", batchSize := some 0,
          dryRun := false }
      = { outcome := .thrown "Batch size must be greater than 0"
          db := emptyDb
          scheduledSelf := none
          scheduledNext := none
          patches := []
          ranPage := false } :=
  ⟨define_batchSize_zero_uses_default.1 100 c8pag (fun _ => .ok none)
      { cursor := some none, batchSize := some 0, dryRun := some false } rfl,
    define_batchSize_zero_uses_default.2.2.2.2 0 emptySys 9
      (fun _ _ _ => .err "e") emptyDb
      { name := "m", fnHandle := "function://h", batchSize := some 0,
        dryRun := false } 0 rfl (by decide)⟩
